import Mathlib

set_option autoImplicit false

/-!
Verification development for the feed content synthesis engine of
`src/rss/app/services/feed_generator.py` (class `FeedService`).

Python strings are modelled as lists of characters (Unicode code points),
so Python's slicing, indexing and length agree with `List.take`,
`List.drop` and `List.length`.  External collaborators are modelled at
their interface boundary: the `markdown` library is a parameter
`md : Str → Except Unit Str` (an `Except.error` models the library
raising), the title-pattern configuration file is a parameter
`Except Unit (List TitlePat)` (an `Except.error` models a read/parse
fault), and the wall clock `datetime.now(...)` is a parameter `now : Int`
(POSIX seconds).  Setters of the `feedgen` library (`fe.id`, `fe.title`,
`fe.content`, ...) are modelled as field updates of a `FeedEntry` record;
`FeedGenerator.add_entry` attaches the fresh entry to the feed before the
caller fills it in, which the feed-assembly functions below mirror.
-/

/-- Python strings as lists of characters. -/
abbrev Str := List Char

/-- String-literal helper. -/
def sl (x : String) : Str := x.toList

/-- The whitespace class used by `str.strip`, `str.lstrip` and the regex
class `\s` (ASCII part, which covers everything this service handles). -/
def isWs (c : Char) : Bool :=
  c = ' ' || c = '\t' || c = '\n' || c = '\r' || c = '\x0b' || c = '\x0c'

/-- Python `str.lstrip()`. -/
def pyLstrip (l : Str) : Str := l.dropWhile isWs

/-- Python `str.strip()`. -/
def pyStrip (l : Str) : Str := ((l.dropWhile isWs).reverse.dropWhile isWs).reverse

/-- Python `str.replace(a, rep)` for a one-character needle `a`. -/
def replaceChar (a : Char) (rep : Str) : Str → Str
  | [] => []
  | c :: cs => (if c = a then rep else [c]) ++ replaceChar a rep cs

/-- `isPre u l` : `u` is a prefix of `l` (Python `str.startswith`). -/
def isPre : Str → Str → Bool
  | [], _ => true
  | _ :: _, [] => false
  | a :: as, b :: bs => a = b && isPre as bs

/-- Python `needle in haystack` (substring test). -/
def containsSub (u : Str) : Str → Bool
  | [] => isPre u []
  | c :: cs => isPre u (c :: cs) || containsSub u cs

/-- Fuel-driven worker for `countSub`; the fuel is an upper bound on the
input length, so the `0` case is never reached by the wrapper. -/
def countSubGo (u : Str) : Nat → Str → Nat
  | _, [] => 0
  | 0, _ => 0
  | fuel + 1, c :: cs =>
      if isPre u (c :: cs) then 1 + countSubGo u fuel (cs.drop (u.length - 1))
      else countSubGo u fuel cs

/-- Python `str.count` (non-overlapping occurrences, scanned left to
right); used to state "contains exactly one embed". -/
def countSub (u l : Str) : Nat := countSubGo u l.length l

/-- Python `str.split(sep)` for a one-character separator. -/
def splitOnChar (sep : Char) : Str → List Str
  | [] => [[]]
  | c :: cs =>
      match splitOnChar sep cs with
      | [] => if c = sep then [[], []] else [[c]]
      | h :: t => if c = sep then [] :: h :: t else (c :: h) :: t

/-- Fuel-driven worker for `splitOnSub`; the fuel is an upper bound on the
input length, so the `0` case is never reached by the wrapper. -/
def splitOnSubGo (pat : Str) : Nat → Str → List Str
  | _, [] => [[]]
  | 0, l => [l]
  | fuel + 1, c :: cs =>
      if isPre pat (c :: cs) then [] :: splitOnSubGo pat fuel (cs.drop (pat.length - 1))
      else
        match splitOnSubGo pat fuel cs with
        | [] => [[c]]
        | h :: t => (c :: h) :: t

/-- Python `str.split(sep)` for a multi-character separator (leftmost,
non-overlapping). -/
def splitOnSub (pat : Str) (l : Str) : List Str := splitOnSubGo pat l.length l

/-- Fuel-driven worker for `replaceSub`. -/
def replaceSubGo (pat rep : Str) : Nat → Str → Str
  | _, [] => []
  | 0, l => l
  | fuel + 1, c :: cs =>
      if isPre pat (c :: cs) then rep ++ replaceSubGo pat rep fuel (cs.drop (pat.length - 1))
      else c :: replaceSubGo pat rep fuel cs

/-- Python `str.replace(pat, rep)` / `re.sub` with a literal pattern
(leftmost, non-overlapping, replacement not rescanned). -/
def replaceSub (pat rep l : Str) : Str := replaceSubGo pat rep l.length l

/-- Fuel-driven worker for `subMultiNl`. -/
def subMultiNlGo (rep : Str) : Nat → Str → Str
  | _, [] => []
  | 0, l => l
  | fuel + 1, c :: cs =>
      if c = '\n' && (match cs with | '\n' :: _ => true | _ => false) then
        rep ++ subMultiNlGo rep fuel (cs.dropWhile (fun d => d = '\n'))
      else c :: subMultiNlGo rep fuel cs

/-- `re.sub(r'\n{2,}', rep, l)` : replace every run of two or more line
breaks by `rep`. -/
def subMultiNl (rep l : Str) : Str := subMultiNlGo rep l.length l

/-- The anchored matcher for one step of
`re.sub(r'\[([^\]]+)\]\([^)]+\)', r'\1', title)` : on success returns the
capture group (the link text) and the remainder after the full match. -/
def linkMatch : Str → Option (Str × Str)
  | '[' :: t =>
      let a := t.takeWhile (fun c => c ≠ ']')
      match t.dropWhile (fun c => c ≠ ']') with
      | ']' :: '(' :: t2 =>
          let b := t2.takeWhile (fun c => c ≠ ')')
          match t2.dropWhile (fun c => c ≠ ')') with
          | ')' :: r4 => if a = [] || b = [] then none else some (a, r4)
          | _ => none
      | _ => none
  | _ => none

/-- Fuel-driven worker for `linkSub`. -/
def linkSubGo : Nat → Str → Str
  | _, [] => []
  | 0, l => l
  | fuel + 1, c :: cs =>
      match linkMatch (c :: cs) with
      | some (a, rest) => a ++ linkSubGo fuel rest
      | none => c :: linkSubGo fuel cs

/-- `re.sub(r'\[([^\]]+)\]\([^)]+\)', r'\1', l)` : rewrite markdown links
`[text](url)` to bare `text`. -/
def linkSub (l : Str) : Str := linkSubGo l.length l

/-- `FeedService.clean_title` (lines 80-102): remove every `*`, rewrite
`[text](url)` links to `text`, collapse newlines to spaces, trim. -/
def clean_title (title : Str) : Str :=
  if title = [] then []
  else pyStrip (replaceChar '\n' (sl " ") (linkSub (replaceChar '*' [] title)))

/-- `re.sub(r'^\*{1,2}\s*', '', l)` : strip one leading run of 1-2 stars
plus following whitespace (anchored at the start, greedy). -/
def stripLeadStars : Str → Str
  | '*' :: '*' :: t => t.dropWhile isWs
  | '*' :: t => t.dropWhile isWs
  | l => l

/-- `re.sub(r'^\s*\n+', '', l)` : if the leading whitespace run contains a
newline, delete everything up to and including the last newline of that
run (the greedy `\s*` backtracks just enough for `\n+` to match). -/
def stripLeadBlankLines (l : Str) : Str :=
  let w := l.takeWhile isWs
  if w.any (fun c => c = '\n') then
    (w.reverse.takeWhile (fun c => c ≠ '\n')).reverse ++ l.drop w.length
  else l

/-- `FeedService.clean_content` (lines 104-123). -/
def clean_content (content : Str) : Str :=
  if content = [] then []
  else stripLeadBlankLines (stripLeadStars content)

/-- One configured title pattern (`configs/title_template.json`).  The
regex engine is external, so the compiled pattern is modelled at its
interface: `mtch content` is `re.compile(pattern, re.MULTILINE).match
(content)` — an anchored match at the start of `content` — returning
`Except.error` when compiling or matching raises, `Except.ok none` when
the pattern does not match at the start, and `Except.ok (some (g, e))`
when it matches with capture group 1 equal to `g` and the full match
ending at offset `e` (`match.span(0) = (0, e)`). -/
structure TitlePat where
  mtch : Str → Except Unit (Option (Str × Nat))

/-- The no-match fallback title of
`extract_telegram_title_and_content` (lines 64-73): `clean_content`, then
newlines collapsed to spaces and trimmed. -/
def cleanedForTitle (content : Str) : Str :=
  pyStrip (replaceChar '\n' (sl " ") (clean_content content))

/-- Lines 64-73: the result when no pattern matched — first 20 characters
of the cleaned content as title, an ellipsis appended when the cleaned
content is longer than 20, and the original content as remainder. -/
def noMatchResult (content : Str) : Str × Str :=
  let cc := cleanedForTitle content
  (cc.take 20 ++ (if 20 < cc.length then sl "..." else []), content)

/-- The pattern loop of `extract_telegram_title_and_content`
(lines 41-62): first matching pattern wins; a pattern fault propagates to
the handler at lines 75-77, which returns `("", content)`. -/
def extractLoop : List TitlePat → Str → Str × Str
  | [], content => noMatchResult content
  | p :: ps, content =>
      match p.mtch content with
      | .error _ => ([], content)
      | .ok none => extractLoop ps content
      | .ok (some (g, e)) => (clean_title g, pyLstrip (content.drop e))

/-- `FeedService.extract_telegram_title_and_content` (lines 19-77).
`cfg` is the parsed `title_template.json`; `Except.error` models a fault
while reading or parsing the configuration, which the handler at lines
75-77 turns into `("", content)`. -/
def extract_telegram_title_and_content
    (cfg : Except Unit (List TitlePat)) (content : Str) : Str × Str :=
  if content = [] then ([], [])
  else
    match cfg with
    | .error _ => ([], content)
    | .ok pats => extractLoop pats content

example : clean_title (sl "**Hello [link](http://x) world\nmore**  ") = sl "Hello link world more" := by decide
example : clean_content (sl "** \n\n  x") = sl "x" := by decide
example : clean_content (sl " \n \n  x\ny") = sl "  x\ny" := by decide
example : stripLeadBlankLines (sl "  \n \n  ab") = sl "  ab" := by decide
example : noMatchResult (sl "hello") = (sl "hello", sl "hello") := by decide
example :
    noMatchResult (sl "abcdefghijklmnopqrstuvwxyz")
      = (sl "abcdefghijklmnopqrst...", sl "abcdefghijklmnopqrstuvwxyz") := by decide
example : splitOnSub (sl "\n\n") (sl "a\n\n\nb") = [sl "a", sl "\nb"] := by decide
example : replaceSub (sl "ab") (sl "x") (sl "cababd") = sl "cxxd" := by decide
example : subMultiNl (sl "|") (sl "a\n\nb\nc\n\n\n") = sl "a|b\nc|" := by decide
example : countSub (sl "aa") (sl "aaaa") = 2 := by decide
example : containsSub (sl "bc") (sl "abcd") = true := by decide

/-! ### Markdown rendering (`convert_markdown_to_html`, lines 350-388) -/

/-- The preprocessing of `convert_markdown_to_html` (lines 358-369): runs
of two or more newlines get the paragraph sentinel, lines starting with
`#` are escaped with a backslash, and two spaces are appended to every
line.  When `markdown.markdown` raises, the local variable `text` holds
this preprocessed value, so the fallback operates on it. -/
def preprocessMd (text : Str) : Str :=
  let t1 := subMultiNl (sl "\n\n<!-- paragraph -->\n\n") text
  List.intercalate (sl "\n")
    ((splitOnChar '\n' t1).map
      (fun line => (if isPre (sl "#") line then '\\' :: line else line) ++ sl "  "))

/-- The fallback rendering of the `except` branch (lines 378-388):
replace runs of 2+ newlines by a paragraph boundary, remaining single
newlines by `<br>`, and wrap in one paragraph. -/
def mdFallback (t : Str) : Str :=
  sl "<p>" ++ replaceChar '\n' (sl "<br>") (subMultiNl (sl "</p><p>") t) ++ sl "</p>"

/-- `FeedService.convert_markdown_to_html` (lines 350-388).  The external
`markdown.markdown(text, extensions=['extra'])` call is the parameter
`md`; `Except.error` models it raising, which triggers the fallback on
the (already preprocessed) text. -/
def convert_markdown_to_html (md : Str → Except Unit Str) (text : Str) : Str :=
  if text = [] then []
  else
    match md (preprocessMd text) with
    | .ok html => replaceSub (sl "<p><!-- paragraph --></p>") (sl "</p><p>") html
    | .error _ => mdFallback (preprocessMd text)

/-! ### Data model

The `Entry`/`Media` classes live in `src/rss/app/models/entry.py`, which
is not part of the sources; their fields are taken from how
`feed_generator.py` reads them.  `mtype`/`size` are `Option`s because the
generator itself guards them with `hasattr(media, 'type')` /
`hasattr(media, 'size')` — `none` models the attribute being absent, and
a plain read of an absent attribute is an `AttributeError` (a fault).
`embedFault` is the fault oracle for the `try` block at lines 176-187
(`settings.get_rule_media_path` / `os.path.join` filesystem code, outside
the sources): `true` means that block raises for this item. -/

structure Media where
  url : Str
  mtype : Option Str
  size : Option Nat
  filename : Str
  original_name : Option Str
  embedFault : Bool
deriving DecidableEq

structure Entry where
  id : Option Str
  message_id : Option Str
  content : Option Str
  media : List Media
  published : Str
  author : Option Str
  link : Option Str
  rule_id : Nat
deriving DecidableEq

/-- One `fe.enclosure(url=..., length=..., type=...)` record. -/
structure Enclosure where
  url : Str
  length : Str
  mtype : Str
deriving DecidableEq

/-- One feed entry as seen through the `feedgen` setters used by the
generator.  `none` means the corresponding setter was never called. -/
structure FeedEntry where
  id : Option Str
  title : Option Str
  content : Option Str
  description : Option Str
  published : Option Int
  author : Option Str
  link : Option Str
  enclosures : List Enclosure
deriving DecidableEq

structure Feed where
  title : Str
  description : Str
  link : Str
  language : Str
  entries : List FeedEntry
deriving DecidableEq

/-- `settings.HOST` / `settings.PORT` (configuration, outside the
sources). -/
structure Settings where
  HOST : Str
  PORT : Nat
deriving DecidableEq

/-- Decimal rendering of a number, as Python string interpolation does. -/
def natStr (n : Nat) : Str := (toString n).toList

/-- `base_url = f"http://{settings.HOST}:{settings.PORT}"` (line 144). -/
def base_url (st : Settings) : Str := sl "http://" ++ st.HOST ++ sl ":" ++ natStr st.PORT

/-- Python truthiness filter for an optional string (`if entry.author:`,
`if entry.link:`): `none` and the empty string are falsy. -/
def pyTruthy (a : Option Str) : Option Str :=
  match a with
  | some v => if v = [] then none else some v
  | none => none

/-- Python `a or b` on optional strings (`entry.id or entry.message_id`). -/
def pyOr (a b : Option Str) : Option Str :=
  match pyTruthy a with
  | some v => some v
  | none => b

/-- The last `/`-separated segment of a path. -/
def lastSeg (u : Str) : Str := (splitOnChar '/' u).getLastD []

/-- `os.path.basename(media.url.split('/')[-1])` (lines 169/283). -/
def mediaFilename (m : Media) : Str := lastSeg (lastSeg m.url)

/-- The derived public media URL
`f"{base_url}/media/{entry.rule_id}/{media_filename}"` (lines 170-171 and
284). -/
def mediaUrl (st : Settings) (rid : Nat) (m : Media) : Str :=
  base_url st ++ sl "/media/" ++ natStr rid ++ sl "/" ++ mediaFilename m

/-- The display name picked at lines 190-194 / 213-217 / 236-240:
`media.original_name` when present and truthy, else `media.filename`. -/
def displayName (m : Media) : Str :=
  match m.original_name with
  | some n => if n = [] then m.filename else n
  | none => m.filename

/-- The inline image tag of the first media pass (line 182). -/
def imgTag1 (url fn : Str) : Str :=
  sl "<p><img src=\"" ++ url ++ sl "\" alt=\"" ++ fn
    ++ sl "\" style=\"max-width:100%;height:auto;display:block;\" /></p>"

/-- The inline image tag of the defensive second pass (line 289). -/
def imgTag2 (url fn : Str) : Str :=
  sl "<p><img src=\"" ++ url ++ sl "\" alt=\"" ++ fn ++ sl "\" style=\"max-width:100%;\" /></p>"

/-- The HTML5 video block (lines 197-207, an `f'''...'''` literal). -/
def videoPlayer (url ty name : Str) : Str :=
  sl "\n                            <div style=\"margin:15px 0;border:1px solid #eee;padding:10px;border-radius:5px;background-color:#f9f9f9;\">\n                                <video controls width=\"100%\" preload=\"none\" poster=\"\" style=\"width:100%;max-width:600px;display:block;margin:0 auto;\">\n                                    <source src=\""
    ++ url ++ sl "\" type=\"" ++ ty
    ++ sl "\">\n                                    您的浏览器不支持HTML5视频播放\n                                </video>\n                                <p style=\"text-align:center;margin-top:8px;font-size:14px;\">\n                                    <a href=\""
    ++ url ++ sl "\" target=\"_blank\">下载视频: " ++ name
    ++ sl "</a>\n                                </p>\n                            </div>\n                            "

/-- The HTML5 audio block (lines 220-230). -/
def audioPlayer (url ty name : Str) : Str :=
  sl "\n                            <div style=\"margin:15px 0;border:1px solid #eee;padding:10px;border-radius:5px;background-color:#f9f9f9;\">\n                                <audio controls style=\"width:100%;max-width:600px;display:block;margin:0 auto;\">\n                                    <source src=\""
    ++ url ++ sl "\" type=\"" ++ ty
    ++ sl "\">\n                                    您的浏览器不支持HTML5音频播放\n                                </audio>\n                                <p style=\"text-align:center;margin-top:8px;font-size:14px;\">\n                                    <a href=\""
    ++ url ++ sl "\" target=\"_blank\">下载音频: " ++ name
    ++ sl "</a>\n                                </p>\n                            </div>\n                            "

/-- The styled download block for other media types (lines 243-249). -/
def fileTag (url name : Str) : Str :=
  sl "\n                            <div style=\"margin:15px 0;padding:10px;border-radius:5px;background-color:#f5f5f5;text-align:center;\">\n                                <a href=\""
    ++ url
    ++ sl "\" target=\"_blank\" style=\"display:inline-block;padding:8px 16px;background-color:#4CAF50;color:white;text-decoration:none;border-radius:4px;\">\n                                    下载文件: "
    ++ name
    ++ sl "\n                                </a>\n                            </div>\n                            "

/-- The inline fragment one media item contributes in the first media
pass (lines 174-250), dispatched on the MIME-type prefix. -/
def inlineFragment (st : Settings) (rid : Nat) (m : Media) (ty : Str) : Str :=
  let url := mediaUrl st rid m
  if isPre (sl "image/") ty then imgTag1 url m.filename
  else if isPre (sl "video/") ty then videoPlayer url ty (displayName m)
  else if isPre (sl "audio/") ty then audioPlayer url ty (displayName m)
  else fileTag url (displayName m)

/-- The first media pass (lines 165-250), accumulating inline fragments
onto the rendered body.  An absent `type` attribute makes the unguarded
`media.type.startswith('image/')` at line 175 raise, which only the
per-entry handler (line 325) catches: the whole entry build aborts.  For
an image, the fragment append sits in its own `try` (lines 176-187): if
that block raises (`embedFault`), the fragment is skipped and the loop
continues. -/
def pass1 (st : Settings) (e : Entry) : List Media → Str → Except Unit Str
  | [], c => .ok c
  | m :: ms, c =>
      match m.mtype with
      | none => .error ()
      | some ty =>
          if isPre (sl "image/") ty && m.embedFault then pass1 st e ms c
          else pass1 st e ms (c ++ inlineFragment st e.rule_id m ty)

/-- Lines 252-256: substitute the placeholder sentence when the body is
empty, plus the attachment-count sentence when media exist. -/
def checkStep (c : Str) (media : List Media) : Str :=
  if c = [] then
    sl "<p>该消息没有文本内容。</p>"
      ++ (if media.isEmpty then [] else sl "<p>包含 " ++ natStr media.length ++ sl " 个媒体文件。</p>")
  else c

/-- One paragraph of the re-wrapping step (lines 265-270). -/
def wrapPara (p : Str) : Str :=
  let lines := splitOnChar '\n' p
  sl "<p>" ++ lines.headD []
    ++ (lines.drop 1).foldl (fun acc line => if (pyStrip line).isEmpty then acc else acc ++ sl "<br>" ++ line) []
    ++ sl "</p>"

/-- Lines 259-271: if the body does not look like markup, re-wrap it into
paragraph/line-break structure. -/
def wrapStep (c : Str) : Str :=
  if isPre (sl "<") c then c
  else
    let pc := ((splitOnSub (sl "\n\n") c).filter (fun p => !(pyStrip p).isEmpty)).foldl
      (fun acc p => acc ++ wrapPara p) []
    if pc = [] then sl "<p>" ++ c ++ sl "</p>" else pc

/-- The anchored matcher for `re.sub(r'<br>\s*<br>', '<br>', ...)`. -/
def brTailMatch (l : Str) : Option Str :=
  if isPre (sl "<br>") l then
    let t := (l.drop 4).dropWhile isWs
    if isPre (sl "<br>") t then some (t.drop 4) else none
  else none

/-- Fuel-driven worker for `collapseBrBr`. -/
def collapseBrBrGo : Nat → Str → Str
  | _, [] => []
  | 0, l => l
  | fuel + 1, c :: cs =>
      match brTailMatch (c :: cs) with
      | some rest => sl "<br>" ++ collapseBrBrGo fuel rest
      | none => c :: collapseBrBrGo fuel cs

/-- `re.sub(r'<br>\s*<br>', '<br>', l)` (line 274). -/
def collapseBrBr (l : Str) : Str := collapseBrBrGo l.length l

/-- The anchored matcher for `re.sub(r'<p>\s*</p>', '', ...)`. -/
def pEmptyMatch (l : Str) : Option Str :=
  if isPre (sl "<p>") l then
    let t := (l.drop 3).dropWhile isWs
    if isPre (sl "</p>") t then some (t.drop 4) else none
  else none

/-- Fuel-driven worker for `dropEmptyPara`. -/
def dropEmptyParaGo : Nat → Str → Str
  | _, [] => []
  | 0, l => l
  | fuel + 1, c :: cs =>
      match pEmptyMatch (c :: cs) with
      | some rest => dropEmptyParaGo fuel rest
      | none => c :: dropEmptyParaGo fuel cs

/-- `re.sub(r'<p>\s*</p>', '', l)` (line 275). -/
def dropEmptyPara (l : Str) : Str := dropEmptyParaGo l.length l

/-- The tag normalization of lines 274-276. -/
def normStep (c : Str) : Str :=
  replaceSub (sl "<p><br></p>") (sl "<p></p>") (dropEmptyPara (collapseBrBr c))

/-- `length=str(media.size) if hasattr(media, 'size') else "0"`
(line 299).  The `"0"` default is dead in `pass2`: the log line at 294
reads `media.size` first, so an absent size raises before this point. -/
def enclosureLength (m : Media) : Str :=
  match m.size with
  | some sz => natStr sz
  | none => sl "0"

/-- `type=media.type if hasattr(media, 'type') else
"application/octet-stream"` (line 300); likewise dead for an absent type
(line 287 reads `media.type` first). -/
def enclosureType (m : Media) : Str :=
  match m.mtype with
  | some ty => ty
  | none => sl "application/octet-stream"

/-- The second media pass (lines 279-303): per item, inside one `try`,
re-add a missing image fragment (only when the derived URL is not already
in the body) and attach the enclosure.  An absent `type` raises at line
287 and an absent `size` raises inside the log f-string at line 294; the
per-item handler catches either and continues with the next item, so the
enclosure of the faulted item is skipped (an absent size still gets its
image fragment: the append at line 290 precedes the log line). -/
def pass2 (st : Settings) (e : Entry) : List Media → Str → List Enclosure → Str × List Enclosure
  | [], c, acc => (c, acc)
  | m :: ms, c, acc =>
      match m.mtype with
      | none => pass2 st e ms c acc
      | some ty =>
          let url := mediaUrl st e.rule_id m
          let c1 := if isPre (sl "image/") ty && !containsSub url c then c ++ imgTag2 url m.filename else c
          match m.size with
          | none => pass2 st e ms c1 acc
          | some _ => pass2 st e ms c1 (acc ++ [{ url := url, length := enclosureLength m, mtype := enclosureType m }])

/-! ### Timestamps

Instants are POSIX seconds (`Int`).  `datetime.fromisoformat` is a
standard-library collaborator; it is modelled on the
`YYYY-MM-DD[{T or space}HH:MM:SS]` shapes, returning `none` (a
`ValueError`) on anything else — faithful on every string the claims
exercise. -/

/-- Parse exactly two digits. -/
def digit2 : Str → Option (Nat × Str)
  | a :: b :: t =>
      if a.isDigit && b.isDigit then some ((a.toNat - 48) * 10 + (b.toNat - 48), t) else none
  | _ => none

/-- Parse exactly four digits. -/
def digit4 : Str → Option (Nat × Str)
  | a :: b :: c :: d :: t =>
      if a.isDigit && b.isDigit && c.isDigit && d.isDigit then
        some (((a.toNat - 48) * 10 + (b.toNat - 48)) * 100 + (c.toNat - 48) * 10 + (d.toNat - 48), t)
      else none
  | _ => none

def isLeap (y : Nat) : Bool := (y % 4 == 0 && !(y % 100 == 0)) || y % 400 == 0

def daysInMonth (y m : Nat) : Nat :=
  if m = 2 then (if isLeap y then 29 else 28)
  else if m = 4 || m = 6 || m = 9 || m = 11 then 30 else 31

/-- Days from 1970-01-01 to the civil date `y-m-d` (proleptic Gregorian,
Hinnant's algorithm). -/
def epochDays (y m d : Nat) : Int :=
  let y1 : Nat := if m ≤ 2 then y - 1 else y
  let era := y1 / 400
  let yoe := y1 % 400
  let mp := (m + 9) % 12
  let doy := (153 * mp + 2) / 5 + (d - 1)
  let doe := yoe * 365 + yoe / 4 - yoe / 100 + doy
  (era * 146097 + doe : Int) - 719468

/-- Parse `HH:MM:SS` exactly, as seconds of the day. -/
def timeOfDay (l : Str) : Option Nat :=
  match digit2 l with
  | some (hh, ':' :: r1) =>
      match digit2 r1 with
      | some (mm, ':' :: r2) =>
          match digit2 r2 with
          | some (ss, []) =>
              if hh ≤ 23 && mm ≤ 59 && ss ≤ 59 then some (hh * 3600 + mm * 60 + ss) else none
          | _ => none
      | _ => none
  | _ => none

/-- `datetime.fromisoformat` (see the section comment): `none` models a
`ValueError`, caught at lines 315-317. -/
def fromisoformat (l : Str) : Option Int :=
  match digit4 l with
  | some (y, '-' :: r1) =>
      match digit2 r1 with
      | some (mo, '-' :: r2) =>
          match digit2 r2 with
          | some (d, rest) =>
              if 1 ≤ mo && mo ≤ 12 && 1 ≤ d && d ≤ daysInMonth y mo then
                match rest with
                | [] => some (epochDays y mo d * 86400)
                | c :: r3 =>
                    if c = 'T' || c = ' ' then
                      match timeOfDay r3 with
                      | some t => some (epochDays y mo d * 86400 + t)
                      | none => none
                    else none
              else none
          | _ => none
      | _ => none
  | _ => none

/-! ### Entry and feed assembly -/

/-- The body of the per-entry loop of `generate_feed_from_entries`
(lines 149-327).  `feedgen`'s `add_entry` attaches a fresh entry to the
feed and returns it; the setters then fill it in place.  The `Bool`
reports whether the body ran to completion: on `false` the per-entry
handler (lines 325-327) caught a fault and moved on, and the first
component is the state the attached entry was left in (id and title were
set before the only uncaught fault source, the media pass). -/
def entryShell (cfg : Except Unit (List TitlePat)) (e : Entry) : FeedEntry :=
  { id := pyOr e.id e.message_id,
    title := some (extract_telegram_title_and_content cfg (e.content.getD [])).1,
    content := none, description := none, published := none, author := none,
    link := none, enclosures := [] }

/-- See the doc comment above: the per-entry loop body proper. -/
def buildFeedEntry (st : Settings) (md : Str → Except Unit Str)
    (cfg : Except Unit (List TitlePat)) (now : Int) (e : Entry) : FeedEntry × Bool :=
  match pass1 st e e.media
      (convert_markdown_to_html md (extract_telegram_title_and_content cfg (e.content.getD [])).2) with
  | .error _ => (entryShell cfg e, false)
  | .ok c1 =>
      let pr := pass2 st e e.media (normStep (wrapStep (checkStep c1 e.media))) []
      ({ entryShell cfg e with
          content := some pr.1, description := some pr.1,
          published := some (match fromisoformat e.published with | some dt => dt | none => now),
          author := pyTruthy e.author, link := pyTruthy e.link,
          enclosures := pr.2 }, true)

/-- `FeedService._extract_chat_name` (lines 331-346). -/
def extract_chat_name (link : Str) : Str :=
  if link = [] || !containsSub (sl "t.me/") link then []
  else
    let parts := splitOnSub (sl "t.me/") link
    if parts.length < 2 then []
    else (splitOnChar '/' (parts.getD 1 [])).headD []

/-- The feed title/description (lines 133-141). -/
def feedHeader (rid : Nat) : List Entry → Str × Str
  | [] => (sl "TG Forwarder RSS - Rule " ++ natStr rid, sl "TG Forwarder RSS Feed")
  | e0 :: _ =>
      let chat := extract_chat_name (e0.link.getD [])
      (sl "TG Forwarder - " ++ (if chat = [] then sl "Rule " ++ natStr rid else chat),
       sl "TG Forwarder RSS - 规则 " ++ natStr rid ++ sl " 的消息")

/-- `FeedService.generate_feed_from_entries` (lines 125-329).  Entries
appear in insertion order, one per input entry — `add_entry` has already
attached the entry when the per-entry handler catches a fault, so a
faulted entry stays in the feed in its state at fault time. -/
def generate_feed_from_entries (st : Settings) (md : Str → Except Unit Str)
    (cfg : Except Unit (List TitlePat)) (now : Int) (rid : Nat) (entries : List Entry) : Feed :=
  { title := (feedHeader rid entries).1,
    description := (feedHeader rid entries).2,
    link := base_url st ++ sl "/rss/" ++ natStr rid,
    language := sl "zh-CN",
    entries := entries.map (fun e => (buildFeedEntry st md cfg now e).1) }

/-- The inverse of `epochDays` (Hinnant), for `strftime`. -/
def civilFromEpochDays (z : Int) : Int × Nat × Nat :=
  let z1 := z + 719468
  let era := z1.ediv 146097
  let doe := (z1 - era * 146097).toNat
  let yoe := (doe - doe / 1460 + doe / 36524 - doe / 146096) / 365
  let doy := doe - (365 * yoe + yoe / 4 - yoe / 100)
  let mp := (5 * doy + 2) / 153
  let d := doy - (153 * mp + 2) / 5 + 1
  let m := if mp < 10 then mp + 3 else mp - 9
  (era * 400 + yoe + (if m ≤ 2 then 1 else 0), m, d)

/-- Zero-padded two-digit rendering. -/
def pad2 (n : Nat) : Str := if n < 10 then '0' :: natStr n else natStr n

/-- `datetime.strftime('%Y-%m-%d %H:%M:%S')` of a POSIX instant. -/
def fmtDateTime (t : Int) : Str :=
  let days := t.ediv 86400
  let secs := (t.emod 86400).toNat
  let c := civilFromEpochDays days
  natStr c.1.toNat ++ sl "-" ++ pad2 c.2.1 ++ sl "-" ++ pad2 c.2.2 ++ sl " "
    ++ pad2 (secs / 3600) ++ sl ":" ++ pad2 (secs % 3600 / 60) ++ sl ":" ++ pad2 (secs % 60)

/-- The placeholder body of one test entry (lines 423-428, an
`f'''...'''` literal; the embedded timestamp is the build-time clock). -/
def testFeedContent (now : Int) (rid : Nat) : Str :=
  sl "\n            <p>这是一个测试条目，由系统自动生成，因为规则 " ++ natStr rid
    ++ sl " 当前没有任何消息数据。</p>\n            <p>当有消息被转发时，真实的条目将会在这里显示。</p>\n            <hr>\n            <p>此测试条目生成于: "
    ++ fmtDateTime now
    ++ sl "</p>\n            "

/-- One synthetic test entry (lines 414-440), for `i ∈ {1, 2, 3}`:
deterministic id `test-<rule_id>-<i>`, published `now - i` hours. -/
def testEntry (st : Settings) (now : Int) (rid i : Nat) : FeedEntry :=
  { id := some (sl "test-" ++ natStr rid ++ sl "-" ++ natStr i),
    title := some (sl "测试条目 " ++ natStr i ++ sl " - 规则 " ++ natStr rid),
    content := some (testFeedContent now rid),
    description := some (testFeedContent now rid),
    published := some (now - 3600 * (i : Int)),
    author := some (sl "TG Forwarder System"),
    link := some (base_url st ++ sl "/rss/feed/" ++ natStr rid ++ sl "?entry=test-"
      ++ natStr rid ++ sl "-" ++ natStr i),
    enclosures := [] }

/-- `FeedService.generate_test_feed` (lines 390-442): three synthetic
entries in insertion order. -/
def generate_test_feed (st : Settings) (now : Int) (rid : Nat) : Feed :=
  { title := sl "TG Forwarder RSS - Rule " ++ natStr rid ++ sl " (测试数据)",
    description := sl "TG Forwarder RSS - 规则 " ++ natStr rid ++ sl " 的测试消息",
    link := base_url st ++ sl "/rss/feed/" ++ natStr rid,
    language := sl "zh-CN",
    entries := [testEntry st now rid 1, testEntry st now rid 2, testEntry st now rid 3] }

/-- Modelled from the spec: the serving layer that chooses between the
real and the synthetic feed is not under the sources (only
`feed_generator.py` is); spec §4.6 states that building with an empty
entry list returns the synthetic test feed, and with a non-empty one the
real feed. -/
def FeedBuilder_build (st : Settings) (md : Str → Except Unit Str)
    (cfg : Except Unit (List TitlePat)) (now : Int) (rid : Nat) (entries : List Entry) : Feed :=
  if entries = [] then generate_test_feed st now rid
  else generate_feed_from_entries st md cfg now rid entries

example : fromisoformat (sl "2024-01-01T00:00:00") = some 1704067200 := by decide
example : fromisoformat (sl "1970-01-01") = some 0 := by decide
example : fromisoformat (sl "2024-02-29T23:59:59") = some 1709251199 := by decide
example : fromisoformat (sl "2023-02-29") = none := by decide
example : fromisoformat (sl "not-a-date") = none := by decide
example : extract_chat_name (sl "https://t.me/chan/123") = sl "chan" := by decide
example : extract_chat_name (sl "https://example.com/x") = [] := by decide
example : fmtDateTime 1704067200 = sl "2024-01-01 00:00:00" := by decide
example : fmtDateTime 1709251199 = sl "2024-02-29 23:59:59" := by decide
example : mediaFilename { url := sl "https://x/y/photo.jpg", mtype := none, size := none, filename := sl "p", original_name := none, embedFault := false } = sl "photo.jpg" := by decide
example : convert_markdown_to_html (fun _ => .error ()) (sl "a\n\nb") = sl "<p>a  <br>  <br><!-- paragraph -->  <br>  <br>b  </p>" := by decide
example : normStep (sl "x<br> <br>y<p> </p><p><br></p>") = sl "x<br>y<p></p>" := by decide

/-! ### Helper lemmas -/

theorem ne_nil_left {a b : Str} (h : a ≠ []) : a ++ b ≠ [] := by
  intro hab
  rcases List.append_eq_nil.mp hab with ⟨h1, _⟩
  exact h h1

theorem ne_nil_right {a b : Str} (h : b ≠ []) : a ++ b ≠ [] := by
  intro hab
  rcases List.append_eq_nil.mp hab with ⟨_, h2⟩
  exact h h2

theorem isPre_extend : ∀ (u v w : Str), isPre u v = true → isPre u (v ++ w) = true := by
  intro u
  induction u with
  | nil => intro v w _; rfl
  | cons a as ih =>
      intro v w h
      cases v with
      | nil => simp [isPre] at h
      | cons b bs =>
          simp only [isPre, Bool.and_eq_true] at h
          rcases h with ⟨hab, htl⟩
          simpa [isPre, hab] using ih bs w htl

theorem isPre_self_append : ∀ (u w : Str), isPre u (u ++ w) = true := by
  intro u
  induction u with
  | nil => intro w; rfl
  | cons a as ih => intro w; simp [isPre, ih]

theorem containsSub_of_isPre : ∀ (u l : Str), isPre u l = true → containsSub u l = true := by
  intro u l h
  cases l with
  | nil => simpa [containsSub] using h
  | cons c cs => simp [containsSub, h]

theorem containsSub_nil : ∀ (l : Str), containsSub ([] : Str) l = true := by
  intro l
  cases l with
  | nil => rfl
  | cons c cs => simp [containsSub, isPre]

theorem containsSub_append_left : ∀ (u a b : Str),
    containsSub u a = true → containsSub u (a ++ b) = true := by
  intro u a
  induction a with
  | nil =>
      intro b h
      have hu : u = [] := by
        cases u with
        | nil => rfl
        | cons x xs => simp [containsSub, isPre] at h
      subst hu
      exact containsSub_nil b
  | cons x xs ih =>
      intro b h
      simp only [containsSub, Bool.or_eq_true] at h
      rcases h with h1 | h2
      · exact containsSub_of_isPre u ((x :: xs) ++ b) (isPre_extend u (x :: xs) b h1)
      · have := ih b h2
        simp [containsSub, this]

theorem containsSub_append_right : ∀ (u a b : Str),
    containsSub u b = true → containsSub u (a ++ b) = true := by
  intro u a
  induction a with
  | nil => intro b h; simpa using h
  | cons x xs ih =>
      intro b h
      have := ih b h
      simp [containsSub, this]

theorem pyLstrip_no_leading_ws : ∀ (l : Str), (pyLstrip l).takeWhile isWs = [] := by
  intro l
  induction l with
  | nil => rfl
  | cons c cs ih =>
      by_cases h : isWs c = true
      · simpa [pyLstrip, List.dropWhile_cons, h] using ih
      · simp only [Bool.not_eq_true] at h
        simp [pyLstrip, List.dropWhile_cons, List.takeWhile_cons, h]

theorem extractLoop_skip : ∀ (ps1 rest : List TitlePat) (content : Str),
    (∀ q ∈ ps1, q.mtch content = Except.ok none) →
    extractLoop (ps1 ++ rest) content = extractLoop rest content := by
  intro ps1
  induction ps1 with
  | nil => intro rest content _; rfl
  | cons p ps ih =>
      intro rest content h
      have hp : p.mtch content = Except.ok none := h p (List.mem_cons_self p ps)
      have hps : ∀ q ∈ ps, q.mtch content = Except.ok none :=
        fun q hq => h q (List.mem_cons_of_mem p hq)
      simp [extractLoop, hp, ih rest content hps]

theorem inlineFragment_ne_nil (st : Settings) (rid : Nat) (m : Media) (ty : Str) :
    inlineFragment st rid m ty ≠ [] := by
  unfold inlineFragment imgTag1 videoPlayer audioPlayer fileTag
  split_ifs <;> (apply ne_nil_right; decide)

theorem pass1_ok (st : Settings) (e : Entry) :
    ∀ (ms : List Media) (c : Str), (∀ m ∈ ms, m.mtype ≠ none) →
    ∃ c1, pass1 st e ms c = Except.ok c1 := by
  intro ms
  induction ms with
  | nil => intro c _; exact ⟨c, rfl⟩
  | cons m ms ih =>
      intro c h
      have hm : m.mtype ≠ none := h m (List.mem_cons_self m ms)
      have hms : ∀ x ∈ ms, x.mtype ≠ none := fun x hx => h x (List.mem_cons_of_mem m hx)
      cases hty : m.mtype with
      | none => exact absurd hty hm
      | some ty =>
          by_cases hc : (isPre (sl "image/") ty && m.embedFault) = true
          · rcases ih c hms with ⟨c1, h1⟩
            exact ⟨c1, by simp [pass1, hty, hc, h1]⟩
          · rcases ih (c ++ inlineFragment st e.rule_id m ty) hms with ⟨c1, h1⟩
            exact ⟨c1, by simp [pass1, hty, hc, h1]⟩

theorem pass1_pos (st : Settings) (e : Entry) :
    ∀ (ms : List Media) (c : Str), (∀ m ∈ ms, m.mtype ≠ none) →
    (∀ m ∈ ms, ∀ ty, m.mtype = some ty → isPre (sl "image/") ty = true → m.embedFault = false) →
    ∃ c1, pass1 st e ms c = Except.ok c1 ∧ c.length ≤ c1.length ∧ (ms ≠ [] → c1 ≠ []) := by
  intro ms
  induction ms with
  | nil => intro c _ _; exact ⟨c, rfl, Nat.le_refl _, by simp⟩
  | cons m ms ih =>
      intro c h hf
      have hm : m.mtype ≠ none := h m (List.mem_cons_self m ms)
      have hms : ∀ x ∈ ms, x.mtype ≠ none := fun x hx => h x (List.mem_cons_of_mem m hx)
      have hfs : ∀ x ∈ ms, ∀ ty, x.mtype = some ty → isPre (sl "image/") ty = true → x.embedFault = false :=
        fun x hx => hf x (List.mem_cons_of_mem m hx)
      cases hty : m.mtype with
      | none => exact absurd hty hm
      | some ty =>
          have hcond : (isPre (sl "image/") ty && m.embedFault) = false := by
            cases himg : isPre (sl "image/") ty with
            | false => simp
            | true => simp [hf m (List.mem_cons_self m ms) ty hty himg]
          rcases ih (c ++ inlineFragment st e.rule_id m ty) hms hfs with ⟨c1, h1, hlen, _⟩
          refine ⟨c1, by simp [pass1, hty, hcond, h1], ?_, ?_⟩
          · calc c.length ≤ (c ++ inlineFragment st e.rule_id m ty).length := by
                  simp [List.length_append]
              _ ≤ c1.length := hlen
          · intro _
            have hfrag : inlineFragment st e.rule_id m ty ≠ [] := inlineFragment_ne_nil st e.rule_id m ty
            have hpos : 0 < (c ++ inlineFragment st e.rule_id m ty).length := by
              have : 0 < (inlineFragment st e.rule_id m ty).length := List.length_pos.mpr hfrag
              simp [List.length_append]
              omega
            have : 0 < c1.length := Nat.lt_of_lt_of_le hpos hlen
            exact List.ne_nil_of_length_pos this

theorem pass2_enclosures (st : Settings) (e : Entry) :
    ∀ (ms : List Media) (c : Str) (acc : List Enclosure), (∀ m ∈ ms, m.mtype ≠ none) →
    (pass2 st e ms c acc).2
      = acc ++ ms.filterMap (fun m =>
          match m.size with
          | some _ => some { url := mediaUrl st e.rule_id m, length := enclosureLength m,
                             mtype := enclosureType m }
          | none => none) := by
  intro ms
  induction ms with
  | nil => intro c acc _; simp [pass2]
  | cons m ms ih =>
      intro c acc h
      have hm : m.mtype ≠ none := h m (List.mem_cons_self m ms)
      have hms : ∀ x ∈ ms, x.mtype ≠ none := fun x hx => h x (List.mem_cons_of_mem m hx)
      cases hty : m.mtype with
      | none => exact absurd hty hm
      | some ty =>
          cases hsz : m.size with
          | none => simp [pass2, hty, hsz, ih _ _ hms, List.filterMap_cons]
          | some sz =>
              simp [pass2, hty, hsz, ih _ _ hms, List.filterMap_cons]

theorem buildFeedEntry_fault (st : Settings) (md : Str → Except Unit Str)
    (cfg : Except Unit (List TitlePat)) (now : Int) (e : Entry)
    (hf : (buildFeedEntry st md cfg now e).2 = false) :
    (buildFeedEntry st md cfg now e).1 = entryShell cfg e := by
  unfold buildFeedEntry at hf ⊢
  cases hp : pass1 st e e.media
      (convert_markdown_to_html md (extract_telegram_title_and_content cfg (e.content.getD [])).2) with
  | error u => simp [hp]
  | ok c1 => rw [hp] at hf; simp at hf

theorem isPre_refl : ∀ (u : Str), isPre u u = true := by
  intro u
  induction u with
  | nil => rfl
  | cons a as ih => simp [isPre, ih]

theorem testFeedContent_has_phrase (now : Int) (rid : Nat) :
    containsSub (sl "<p>这是一个测试条目，由系统自动生成") (testFeedContent now rid) = true := by
  unfold testFeedContent
  apply containsSub_append_left
  apply containsSub_append_left
  apply containsSub_append_left
  apply containsSub_append_left
  decide

/-! ### Concrete fixtures used by witnesses and counterexamples -/

def stW : Settings := { HOST := sl "h", PORT := 80 }

def mdOkW : Str → Except Unit Str := fun t => Except.ok t

def mdErrW : Str → Except Unit Str := fun _ => Except.error ()

def cfgEmptyW : Except Unit (List TitlePat) := Except.ok []

def patHitW : TitlePat := { mtch := fun _ => Except.ok (some (sl "Ti", 3)) }

def patMissW : TitlePat := { mtch := fun _ => Except.ok none }

def patBoomW : TitlePat := { mtch := fun _ => Except.error () }

def mBadW : Media :=
  { url := sl "f.bin", mtype := none, size := some 3, filename := sl "f.bin",
    original_name := none, embedFault := false }

def eBadW : Entry :=
  { id := some (sl "e1"), message_id := none, content := some (sl "hi"), media := [mBadW],
    published := sl "2024-01-01T00:00:00", author := none, link := none, rule_id := 1 }

def eNoDateW : Entry :=
  { id := some (sl "e2"), message_id := none, content := some (sl "hello"), media := [],
    published := sl "not-a-date", author := none, link := none, rule_id := 1 }

def mImgW : Media :=
  { url := sl "photos/photo.jpg", mtype := some (sl "image/jpeg"), size := some 2048,
    filename := sl "photo.jpg", original_name := none, embedFault := false }

def eImgW : Entry :=
  { id := some (sl "img1"), message_id := none, content := none, media := [mImgW],
    published := sl "not-a-date", author := none, link := none, rule_id := 7 }

def mNoSizeW : Media :=
  { url := sl "a.png", mtype := some (sl "image/png"), size := none, filename := sl "a.png",
    original_name := none, embedFault := false }

def mSizeW : Media :=
  { url := sl "b.png", mtype := some (sl "image/png"), size := some 5, filename := sl "b.png",
    original_name := none, embedFault := false }

def eEncW : Entry :=
  { id := some (sl "enc1"), message_id := none, content := none, media := [mNoSizeW, mSizeW],
    published := sl "not-a-date", author := none, link := none, rule_id := 2 }

def mVidW : Media :=
  { url := sl "clip.mp4", mtype := some (sl "video/mp4"), size := some 9,
    filename := sl "clip.mp4", original_name := none, embedFault := false }

def eMediaW : Entry :=
  { id := some (sl "m1"), message_id := none, content := none, media := [mSizeW, mVidW],
    published := sl "not-a-date", author := none, link := none, rule_id := 3 }

/-! ### Claim theorems -/

/-- C4: for every non-empty content string and every ordered list of
configured patterns, the patterns are tried in order with matching
anchored at the start (the `TitlePat.mtch` interface); on the first
pattern that matches, the title is the cleaned capture group 1 and the
remainder is the content starting immediately after the end of the full
match with leading whitespace stripped (so the remainder excludes the
matched prefix and has no leading whitespace). -/
theorem c4_first_pattern_wins (ps1 ps2 : List TitlePat) (p : TitlePat)
    (content g : Str) (e : Nat) (hc : content ≠ [])
    (h1 : ∀ q ∈ ps1, q.mtch content = Except.ok none)
    (hp : p.mtch content = Except.ok (some (g, e))) :
    extract_telegram_title_and_content (Except.ok (ps1 ++ p :: ps2)) content
      = (clean_title g, pyLstrip (content.drop e))
  ∧ (pyLstrip (content.drop e)).takeWhile isWs = [] := by
  constructor
  · simp only [extract_telegram_title_and_content, if_neg hc]
    rw [extractLoop_skip ps1 (p :: ps2) content h1]
    simp [extractLoop, hp]
  · exact pyLstrip_no_leading_ws _

/-- C4 witness: a concrete one-pattern configuration matching the first
three characters of `"abc def"` with capture group `"Ti"`. -/
theorem c4_first_pattern_wins_witness :
    extract_telegram_title_and_content (Except.ok [patHitW]) (sl "abc def")
      = (clean_title (sl "Ti"), pyLstrip ((sl "abc def").drop 3))
  ∧ (pyLstrip ((sl "abc def").drop 3)).takeWhile isWs = [] :=
  c4_first_pattern_wins [] [] patHitW (sl "abc def") (sl "Ti") 3 (by decide)
    (by intro q hq; simp at hq) rfl

/-- C5: for every non-empty content matching no configured pattern, the
title is the first 20 characters of the cleaned content (newlines
collapsed to spaces, trimmed) with an ellipsis appended exactly when the
cleaned content exceeds 20 characters, the title is at most 23 characters
long, and the remainder is the original uncleaned content unchanged. -/
theorem c5_no_pattern_fallback (pats : List TitlePat) (content : Str) (hc : content ≠ [])
    (h1 : ∀ q ∈ pats, q.mtch content = Except.ok none) :
    extract_telegram_title_and_content (Except.ok pats) content
      = ((cleanedForTitle content).take 20
          ++ (if 20 < (cleanedForTitle content).length then sl "..." else []), content)
  ∧ (extract_telegram_title_and_content (Except.ok pats) content).1.length ≤ 23
  ∧ (extract_telegram_title_and_content (Except.ok pats) content).2 = content := by
  have hmain : extract_telegram_title_and_content (Except.ok pats) content
      = ((cleanedForTitle content).take 20
          ++ (if 20 < (cleanedForTitle content).length then sl "..." else []), content) := by
    simp only [extract_telegram_title_and_content, if_neg hc]
    have hskip := extractLoop_skip pats [] content h1
    rw [List.append_nil] at hskip
    rw [hskip]
    simp [extractLoop, noMatchResult]
  refine ⟨hmain, ?_, by rw [hmain]⟩
  rw [hmain]
  simp only [List.length_append, List.length_take]
  have hb : (sl "...").length = 3 := by decide
  split
  · omega
  · simp only [List.length_nil]
    omega

/-- C5 witness: a 31-character content against one never-matching
pattern, exercising the ellipsis case. -/
theorem c5_no_pattern_fallback_witness :
    extract_telegram_title_and_content (Except.ok [patMissW]) (sl "hello world this is a long trip")
      = ((cleanedForTitle (sl "hello world this is a long trip")).take 20
          ++ (if 20 < (cleanedForTitle (sl "hello world this is a long trip")).length
              then sl "..." else []), sl "hello world this is a long trip")
  ∧ (extract_telegram_title_and_content (Except.ok [patMissW])
        (sl "hello world this is a long trip")).1.length ≤ 23
  ∧ (extract_telegram_title_and_content (Except.ok [patMissW])
        (sl "hello world this is a long trip")).2 = sl "hello world this is a long trip" :=
  c5_no_pattern_fallback [patMissW] (sl "hello world this is a long trip") (by decide)
    (by intro q hq; simp at hq; rw [hq]; rfl)

/-- C6: extraction never raises — for empty content it returns
`("", "")` (absent content is passed as the empty string by the builder),
and any internal fault (a configuration read/parse fault, or a regex
fault while no earlier pattern has matched) yields `("", content)` with
the original content intact. -/
theorem c6_extraction_never_raises (cfg : Except Unit (List TitlePat))
    (ps1 ps2 : List TitlePat) (p : TitlePat) (content : Str) (hc : content ≠ [])
    (h1 : ∀ q ∈ ps1, q.mtch content = Except.ok none)
    (hp : p.mtch content = Except.error ()) :
    extract_telegram_title_and_content cfg [] = ([], [])
  ∧ extract_telegram_title_and_content (Except.error ()) content = ([], content)
  ∧ extract_telegram_title_and_content (Except.ok (ps1 ++ p :: ps2)) content = ([], content) := by
  refine ⟨rfl, ?_, ?_⟩
  · simp [extract_telegram_title_and_content, hc]
  · simp only [extract_telegram_title_and_content, if_neg hc]
    rw [extractLoop_skip ps1 (p :: ps2) content h1]
    simp [extractLoop, hp]

/-- C6 witness: a concrete faulting pattern behind a non-matching one. -/
theorem c6_extraction_never_raises_witness :
    extract_telegram_title_and_content cfgEmptyW [] = ([], [])
  ∧ extract_telegram_title_and_content (Except.error ()) (sl "x") = ([], sl "x")
  ∧ extract_telegram_title_and_content (Except.ok ([patMissW] ++ patBoomW :: [])) (sl "x")
      = ([], sl "x") :=
  c6_extraction_never_raises cfgEmptyW [patMissW] [] patBoomW (sl "x") (by decide)
    (by intro q hq; simp at hq; rw [hq]; rfl) rfl

/-- C7 counterexample: the claim says that on a rendering fault the
result equals the *input* with newline runs replaced and wrapped in one
paragraph (`mdFallback` applied to the raw input).  In the code the
`except` branch sees the already preprocessed local `text` (two trailing
spaces were appended to every line, and for multi-line inputs the
paragraph sentinel was inserted), so already for the one-character input
`"a"` the result is `"<p>a  </p>"`, not `"<p>a</p>"`. -/
theorem c7_counterexample :
    convert_markdown_to_html mdErrW (sl "a") ≠ mdFallback (sl "a")
  ∧ convert_markdown_to_html mdErrW (sl "a") = sl "<p>a  </p>"
  ∧ mdFallback (sl "a") = sl "<p>a</p>" := by
  refine ⟨by decide, by decide, by decide⟩

/-- C7 (amended): `render("")` is `""`; `render` is a total function
(never raises); and for non-empty input, when the primary markdown
conversion faults, the result is the fallback — runs of 2+ line breaks
replaced by `</p><p>`, remaining line breaks by `<br>`, wrapped in a
single paragraph — applied to the *preprocessed* text (paragraph
sentinels inserted, leading `#` escaped, two spaces appended per line),
and that fallback output is non-empty. -/
theorem c7_render_fallback (md : Str → Except Unit Str) (text : Str) (ht : text ≠ [])
    (he : md (preprocessMd text) = Except.error ()) :
    convert_markdown_to_html md [] = []
  ∧ convert_markdown_to_html md text = mdFallback (preprocessMd text)
  ∧ convert_markdown_to_html md text ≠ [] := by
  have h2 : convert_markdown_to_html md text = mdFallback (preprocessMd text) := by
    simp [convert_markdown_to_html, ht, he]
  refine ⟨rfl, h2, ?_⟩
  rw [h2]
  unfold mdFallback
  exact ne_nil_right (by decide)

/-- C7 witness: a faulting converter on a two-paragraph input. -/
theorem c7_render_fallback_witness :
    convert_markdown_to_html mdErrW [] = []
  ∧ convert_markdown_to_html mdErrW (sl "x\n\ny") = mdFallback (preprocessMd (sl "x\n\ny"))
  ∧ convert_markdown_to_html mdErrW (sl "x\n\ny") ≠ [] :=
  c7_render_fallback mdErrW (sl "x\n\ny") (by decide) rfl

/-- C2: building the feed for an empty entry list (spec 4.6, the
synthetic-feed branch) yields at least 3 placeholder entries whose ids
follow `test-<ruleId>-<n>`, whose published instants are anchored to the
build time, strictly descending, one hour (3600 s) apart and most recent
first, and whose bodies contain the explanatory placeholder text. -/
theorem c2_synthetic_feed (st : Settings) (md : Str → Except Unit Str)
    (cfg : Except Unit (List TitlePat)) (now : Int) (rid : Nat) :
    3 ≤ (FeedBuilder_build st md cfg now rid []).entries.length
  ∧ (FeedBuilder_build st md cfg now rid []).entries.map (fun fe => fe.id)
      = [some (sl "test-" ++ natStr rid ++ sl "-" ++ natStr 1),
         some (sl "test-" ++ natStr rid ++ sl "-" ++ natStr 2),
         some (sl "test-" ++ natStr rid ++ sl "-" ++ natStr 3)]
  ∧ (FeedBuilder_build st md cfg now rid []).entries.map (fun fe => fe.published)
      = [some (now - 3600), some (now - 7200), some (now - 10800)]
  ∧ now - 7200 < now - 3600 ∧ now - 10800 < now - 7200
  ∧ (now - 3600) - (now - 7200) = 3600 ∧ (now - 7200) - (now - 10800) = 3600
  ∧ (FeedBuilder_build st md cfg now rid []).entries.map
      (fun fe => containsSub (sl "<p>这是一个测试条目，由系统自动生成") (fe.content.getD []))
      = [true, true, true] := by
  refine ⟨?_, ?_, ?_, by omega, by omega, by omega, by omega, ?_⟩
  · simp [FeedBuilder_build, generate_test_feed]
  · simp [FeedBuilder_build, generate_test_feed, testEntry]
  · simp [FeedBuilder_build, generate_test_feed, testEntry]
  · simp [FeedBuilder_build, generate_test_feed, testEntry, testFeedContent_has_phrase]

/-- C3: the entry's `published` string is parsed as ISO-8601 and becomes
the published instant, with the current time substituted when parsing
fails; `"2024-01-01T00:00:00"` parses to exactly that instant
(1704067200 s POSIX) and `"not-a-date"` is rejected without raising. -/
theorem c3_published_time (st : Settings) (md : Str → Except Unit Str)
    (cfg : Except Unit (List TitlePat)) (now : Int) (e : Entry)
    (hm : ∀ m ∈ e.media, m.mtype ≠ none) :
    ((buildFeedEntry st md cfg now e).1).published = some ((fromisoformat e.published).getD now)
  ∧ fromisoformat (sl "2024-01-01T00:00:00") = some 1704067200
  ∧ fromisoformat (sl "not-a-date") = none := by
  refine ⟨?_, by decide, by decide⟩
  rcases pass1_ok st e e.media
      (convert_markdown_to_html md (extract_telegram_title_and_content cfg (e.content.getD [])).2)
      hm with ⟨c1, hp⟩
  simp only [buildFeedEntry, hp]
  cases hiso : fromisoformat e.published <;> simp [hiso]

/-- C3 witness: an entry whose `published` is unparseable falls back to
the build-time clock. -/
theorem c3_published_time_witness :
    ((buildFeedEntry stW mdOkW cfgEmptyW 0 eNoDateW).1).published
      = some ((fromisoformat eNoDateW.published).getD 0)
  ∧ fromisoformat (sl "2024-01-01T00:00:00") = some 1704067200
  ∧ fromisoformat (sl "not-a-date") = none :=
  c3_published_time stW mdOkW cfgEmptyW 0 eNoDateW (by intro m hm; simp [eNoDateW] at hm)

/-- C9 counterexample: the claim says every media item gets exactly one
enclosure, with length `"0"` substituted when the size attribute is
absent.  In the code the log f-string at line 294 reads `media.size`
*before* the `fe.enclosure` call, so an absent size raises there and the
per-item handler skips the enclosure entirely — the `"0"` default at
line 299 is unreachable.  `eEncW` has two media items, the first without
a size: only one enclosure (the second item's) is produced. -/
theorem c9_counterexample :
    eEncW.media.length = 2
  ∧ ((buildFeedEntry stW mdOkW cfgEmptyW 0 eEncW).1).enclosures.length = 1
  ∧ ((buildFeedEntry stW mdOkW cfgEmptyW 0 eEncW).1).enclosures
      = [{ url := mediaUrl stW 2 mSizeW, length := sl "5", mtype := sl "image/png" }] := by
  refine ⟨by decide, by decide, by decide⟩

/-- C9 (amended): one enclosure per media item whose `size` attribute is
present — url the derived media URL, length the decimal byte size, type
the declared MIME type — and an item whose size is absent yields no
enclosure (its fault is isolated: items before and after it still get
theirs).  The `"0"` / `application/octet-stream` defaults at lines
299-300 are dead: the attributes are read earlier inside the same `try`
(type at line 287, size in the log line 294), and an absent type already
aborts the whole entry at line 175. -/
theorem c9_enclosure_generation (st : Settings) (md : Str → Except Unit Str)
    (cfg : Except Unit (List TitlePat)) (now : Int) (e : Entry)
    (hm : ∀ m ∈ e.media, m.mtype ≠ none) :
    ((buildFeedEntry st md cfg now e).1).enclosures
      = e.media.filterMap (fun m =>
          match m.size with
          | some _ => some { url := mediaUrl st e.rule_id m, length := enclosureLength m,
                             mtype := enclosureType m }
          | none => none) := by
  rcases pass1_ok st e e.media
      (convert_markdown_to_html md (extract_telegram_title_and_content cfg (e.content.getD [])).2)
      hm with ⟨c1, hp⟩
  simp only [buildFeedEntry, hp]
  rw [pass2_enclosures st e e.media _ [] hm]
  simp

/-- C9 witness: the two-item entry `eEncW` (first item without size)
instantiates the amended statement. -/
theorem c9_enclosure_generation_witness :
    ((buildFeedEntry stW mdOkW cfgEmptyW 0 eEncW).1).enclosures
      = eEncW.media.filterMap (fun m =>
          match m.size with
          | some _ => some { url := mediaUrl stW eEncW.rule_id m, length := enclosureLength m,
                             mtype := enclosureType m }
          | none => none) :=
  c9_enclosure_generation stW mdOkW cfgEmptyW 0 eEncW (by decide)

/-- C10: for an entry with a non-empty media list whose items all carry a
type attribute and whose image items append their fragment without an
internal fault, the accumulated body is non-empty when the emptiness
check of line 253 runs (each fragment is a non-empty HTML string), so the
check leaves the body unchanged — neither the placeholder sentence nor
the count-of-attachments sentence (which additionally requires an empty
body with media present) is substituted; the placeholder arises only for
an empty body, as the last conjunct shows for the empty-media case. -/
theorem c10_media_body_no_placeholder (st : Settings) (e : Entry) (c0 : Str)
    (hne : e.media ≠ [])
    (hm : ∀ m ∈ e.media, m.mtype ≠ none)
    (hf : ∀ m ∈ e.media, ∀ ty, m.mtype = some ty → isPre (sl "image/") ty = true →
        m.embedFault = false) :
    pass1 st e e.media c0 = Except.ok ((pass1 st e e.media c0).toOption.getD [])
  ∧ (pass1 st e e.media c0).toOption.getD [] ≠ []
  ∧ checkStep ((pass1 st e e.media c0).toOption.getD []) e.media
      = (pass1 st e e.media c0).toOption.getD []
  ∧ checkStep [] [] = sl "<p>该消息没有文本内容。</p>" := by
  rcases pass1_pos st e e.media c0 hm hf with ⟨c1, hp, _, hpos⟩
  have hne1 : c1 ≠ [] := hpos hne
  have hval : (pass1 st e e.media c0).toOption.getD [] = c1 := by
    rw [hp]; rfl
  refine ⟨by rw [hval, hp], by rw [hval]; exact hne1, ?_, by decide⟩
  rw [hval]
  simp [checkStep, hne1]

/-- C10 witness: an entry with one image and one video attachment,
starting from an empty rendered body. -/
theorem c10_media_body_no_placeholder_witness :
    pass1 stW eMediaW eMediaW.media []
      = Except.ok ((pass1 stW eMediaW eMediaW.media []).toOption.getD [])
  ∧ (pass1 stW eMediaW eMediaW.media []).toOption.getD [] ≠ []
  ∧ checkStep ((pass1 stW eMediaW eMediaW.media []).toOption.getD []) eMediaW.media
      = (pass1 stW eMediaW eMediaW.media []).toOption.getD []
  ∧ checkStep [] [] = sl "<p>该消息没有文本内容。</p>" :=
  c10_media_body_no_placeholder stW eMediaW [] (by decide) (by decide)
    (by intro m hmem ty hty himg; fin_cases hmem <;> rfl)

set_option maxRecDepth 16384 in
/-- C8: the defensive second media pass appends an image fragment only if
the derived URL does not already appear in the accumulated content, so
running it again does not duplicate the image (idempotency); and
end-to-end, the built body of an entry with exactly one image medium
(`eImgW`) contains exactly one embed referencing the derived URL. -/
theorem c8_image_embed_once (st : Settings) (e : Entry) (m : Media) (ty : Str) (c : Str)
    (acc acc2 : List Enclosure) (h1 : m.mtype = some ty) (h2 : isPre (sl "image/") ty = true) :
    (pass2 st e [m] c acc).1
      = (if containsSub (mediaUrl st e.rule_id m) c = true then c
         else c ++ imgTag2 (mediaUrl st e.rule_id m) m.filename)
  ∧ (pass2 st e [m] ((pass2 st e [m] c acc).1) acc2).1 = (pass2 st e [m] c acc).1
  ∧ countSub (mediaUrl stW 7 mImgW)
      (((buildFeedEntry stW mdOkW cfgEmptyW 0 eImgW).1).content.getD []) = 1 := by
  have hfst : ∀ (x : Str) (a : List Enclosure), (pass2 st e [m] x a).1
      = (if containsSub (mediaUrl st e.rule_id m) x = true then x
         else x ++ imgTag2 (mediaUrl st e.rule_id m) m.filename) := by
    intro x a
    cases hsz : m.size <;> cases hcc : containsSub (mediaUrl st e.rule_id m) x <;>
      simp [pass2, h1, h2, hsz, hcc]
  have himg : containsSub (mediaUrl st e.rule_id m)
      (c ++ imgTag2 (mediaUrl st e.rule_id m) m.filename) = true := by
    apply containsSub_append_right
    unfold imgTag2
    apply containsSub_append_left
    apply containsSub_append_left
    apply containsSub_append_left
    apply containsSub_append_right
    exact containsSub_of_isPre _ _ (isPre_refl _)
  refine ⟨hfst c acc, ?_, by decide⟩
  cases hcc : containsSub (mediaUrl st e.rule_id m) c with
  | true =>
      have ha : (pass2 st e [m] c acc).1 = c := by rw [hfst c acc, if_pos hcc]
      rw [ha, hfst c acc2, if_pos hcc]
  | false =>
      have ha : (pass2 st e [m] c acc).1
          = c ++ imgTag2 (mediaUrl st e.rule_id m) m.filename := by
        rw [hfst c acc, if_neg (by simp [hcc])]
      rw [ha, hfst _ acc2, if_pos himg]

/-- C8 witness: the single image medium of `eImgW` against an empty
accumulated body. -/
theorem c8_image_embed_once_witness :
    (pass2 stW eImgW [mImgW] [] []).1
      = (if containsSub (mediaUrl stW eImgW.rule_id mImgW) [] = true then []
         else [] ++ imgTag2 (mediaUrl stW eImgW.rule_id mImgW) mImgW.filename)
  ∧ (pass2 stW eImgW [mImgW] ((pass2 stW eImgW [mImgW] [] []).1) []).1
      = (pass2 stW eImgW [mImgW] [] []).1
  ∧ countSub (mediaUrl stW 7 mImgW)
      (((buildFeedEntry stW mdOkW cfgEmptyW 0 eImgW).1).content.getD []) = 1 :=
  c8_image_embed_once stW eImgW mImgW (sl "image/jpeg") [] [] [] rfl (by decide)

/-- C1 counterexample: the claim says a faulted entry is excluded from
the feed, which would leave this one-entry feed empty.  The single entry
`eBadW` faults while being built (its media item has no `type`
attribute, so line 175 raises), yet the feed still contains one entry:
`add_entry` attached it before the fault, and the handler at lines
325-327 only logs and continues without removing it. -/
theorem c1_counterexample :
    (buildFeedEntry stW mdOkW cfgEmptyW 0 eBadW).2 = false
  ∧ (generate_feed_from_entries stW mdOkW cfgEmptyW 0 1 [eBadW]).entries.length = 1 := by
  refine ⟨by decide, by decide⟩

/-- C1 (amended): a fault while building an entry is logged and the loop
continues with the remaining entries, but the faulted entry is not
excluded: the feed holds one entry per input entry (in order), and a
faulted one remains as the partially built entry — id and title set,
content, description, published, author, link and enclosures never
set. -/
theorem c1_fault_isolation (st : Settings) (md : Str → Except Unit Str)
    (cfg : Except Unit (List TitlePat)) (now : Int) (rid : Nat) (entries : List Entry)
    (e : Entry) (he : e ∈ entries) (hfault : (buildFeedEntry st md cfg now e).2 = false) :
    (generate_feed_from_entries st md cfg now rid entries).entries
      = entries.map (fun x => (buildFeedEntry st md cfg now x).1)
  ∧ (buildFeedEntry st md cfg now e).1
      ∈ (generate_feed_from_entries st md cfg now rid entries).entries
  ∧ (buildFeedEntry st md cfg now e).1 = entryShell cfg e
  ∧ ((buildFeedEntry st md cfg now e).1).content = none
  ∧ ((buildFeedEntry st md cfg now e).1).enclosures = [] := by
  have hshell := buildFeedEntry_fault st md cfg now e hfault
  refine ⟨rfl, ?_, hshell, by rw [hshell]; rfl, by rw [hshell]; rfl⟩
  simp only [generate_feed_from_entries]
  exact List.mem_map.mpr ⟨e, he, rfl⟩

/-- C1 witness: the one-entry feed around the faulting entry `eBadW`. -/
theorem c1_fault_isolation_witness :
    (generate_feed_from_entries stW mdOkW cfgEmptyW 0 1 [eBadW]).entries
      = [eBadW].map (fun x => (buildFeedEntry stW mdOkW cfgEmptyW 0 x).1)
  ∧ (buildFeedEntry stW mdOkW cfgEmptyW 0 eBadW).1
      ∈ (generate_feed_from_entries stW mdOkW cfgEmptyW 0 1 [eBadW]).entries
  ∧ (buildFeedEntry stW mdOkW cfgEmptyW 0 eBadW).1 = entryShell cfgEmptyW eBadW
  ∧ ((buildFeedEntry stW mdOkW cfgEmptyW 0 eBadW).1).content = none
  ∧ ((buildFeedEntry stW mdOkW cfgEmptyW 0 eBadW).1).enclosures = [] :=
  c1_fault_isolation stW mdOkW cfgEmptyW 0 1 [eBadW] eBadW (by simp) (by decide)
